import Mathlib

/-!
# mailbonobo: the notification pipeline of `main.go`

A shallow embedding of `src/main.go`.  Go strings are byte sequences, pointers
are `Option`s (`nil` is `none`), slices are lists (a nil slice is `[]`), and a
Go `(value, error)` pair is a Lean pair whose second component is `none` when
the error is nil (`Except` where the value is never looked at on error).
Log lines are not modelled, except that `log.Fatalf` ends the process with
status 1.  The collaborators the program calls but does not define
(the file system, the YAML decoder, the template engine, the SES client) are
explicit arguments: the file system is a state that is passed along, the
others are the fields of `Env`.
-/

namespace Mailbonobo

/-! ## Strings and errors -/

/-- Go `string`: an immutable sequence of bytes; `len` and slicing count bytes. -/
abbrev GoString := List UInt8

/-- The bytes of a source literal (Go source text is UTF-8). -/
def utf8 (s : String) : GoString :=
  s.data.flatMap String.utf8EncodeChar

/-- Go `error` values, identified by their message. -/
abbrev GoError := String

/-- `charSet` of `main.go`, line 24. -/
def charSet : GoString := utf8 "UTF-8"

/-- `templateFile` of `main.go`, line 25. -/
def templateFile : GoString := utf8 "templates/main.gohtml"

/-! ## The record (`main.go`, lines 34-67) -/

/-- `metadata`: `Sender` and `SlackChannel` are exported Go fields,
`bccRecipients` is written in lower case and is therefore unexported. -/
structure metadata where
  Sender : GoString
  bccRecipients : List GoString
  SlackChannel : GoString
  deriving DecidableEq, Repr

structure ticket where
  RFC : GoString
  JiraTicket : GoString
  RFCSubstr : GoString
  deriving DecidableEq, Repr

structure service where
  ServiceName : GoString
  ServiceDescription : GoString
  deriving DecidableEq, Repr

structure content where
  When : GoString
  Who : GoString
  Why : GoString
  Outage : GoString
  deriving DecidableEq, Repr

structure mail where
  Metadata : metadata
  Title : GoString
  Summary : GoString
  Ticket : ticket
  Service : service
  Content : content
  deriving DecidableEq, Repr

/-! ## The SES request types used by `assembleEmail`

The shapes of `ses.Content`, `ses.Body`, `ses.Message`, `ses.Destination` and
`ses.SendEmailInput` of the AWS SDK, restricted to the fields that carry
sender, recipients, subject and body.  Every pointer field is an `Option`. -/

/-- The type `ses.Content`. -/
structure SesContent where
  Charset : Option GoString
  Data : Option GoString
  deriving DecidableEq, Repr

/-- The type `ses.Body`. -/
structure SesBody where
  Html : Option SesContent
  Text : Option SesContent
  deriving DecidableEq, Repr

/-- The type `ses.Message`. -/
structure SesMessage where
  Body : Option SesBody
  Subject : Option SesContent
  deriving DecidableEq, Repr

/-- The type `ses.Destination`: three slices of string pointers. -/
structure SesDestination where
  BccAddresses : List (Option GoString)
  CcAddresses : List (Option GoString)
  ToAddresses : List (Option GoString)
  deriving DecidableEq, Repr

/-- The type `ses.SendEmailInput`. -/
structure SendEmailInput where
  Destination : Option SesDestination
  Message : Option SesMessage
  Source : Option GoString
  deriving DecidableEq, Repr

/-- The type `ses.SendEmailOutput`. -/
structure SendEmailOutput where
  MessageId : Option GoString
  deriving DecidableEq, Repr

/-- `aws.String`: a pointer to a copy of the string. -/
def awsString (s : GoString) : Option GoString := some s

/-- `aws.StringSlice`: a slice of the same length holding a pointer to each
element, in order. -/
def awsStringSlice (src : List GoString) : List (Option GoString) :=
  src.map some

/-- `assembleEmail` (`main.go`, lines 69-89). -/
def assembleEmail (sender : GoString) (bccRecipients : List GoString)
    (htmlBody : GoString) (subject : GoString) : SendEmailInput :=
  { Destination := some
      { BccAddresses := awsStringSlice bccRecipients
        CcAddresses := []
        ToAddresses := [] }
    Message := some
      { Body := some
          { Html := some { Charset := awsString charSet, Data := awsString htmlBody }
            Text := none }
        Subject := some { Charset := awsString charSet, Data := awsString subject } }
    Source := awsString sender }

/-- The HTML part of a request, following `input.Message.Body.Html`. -/
def SendEmailInput.htmlContent (i : SendEmailInput) : Option SesContent :=
  (i.Message.bind fun msg => msg.Body).bind fun b => b.Html

/-- The subject part of a request, following `input.Message.Subject`. -/
def SendEmailInput.subjectContent (i : SendEmailInput) : Option SesContent :=
  i.Message.bind fun msg => msg.Subject

/-- The BCC slice of a request, following `input.Destination.BccAddresses`. -/
def SendEmailInput.bcc (i : SendEmailInput) : Option (List (Option GoString)) :=
  i.Destination.map fun d => d.BccAddresses

/-! ## The file system -/

/-- The file system: the content of every existing file, and for every path
whether reading, creating or writing it fails (permissions, a missing
directory, a full disk).  A failing write says how many bytes went out. -/
structure FileSystem where
  files : GoString → Option GoString
  readErr : GoString → Option GoError
  createErr : GoString → Option GoError
  writeErr : GoString → GoString → Option (Nat × GoError)

/-- The state in which the file `name` has content `c`. -/
def FileSystem.put (fs : FileSystem) (name : GoString) (c : GoString) : FileSystem :=
  { fs with files := fun q => if q = name then some c else fs.files q }

/-- `ioutil.ReadFile`: the whole content, or an error when the file is missing
or unreadable. -/
def ReadFile (fs : FileSystem) (name : GoString) : Except GoError GoString :=
  match fs.files name with
  | none => .error "no such file or directory"
  | some c =>
    match fs.readErr name with
    | some e => .error e
    | none => .ok c

/-- `os.Create`: creates the file, or truncates it when it exists; the handle
it returns stands at offset 0. -/
def osCreate (fs : FileSystem) (name : GoString) : FileSystem × Option GoError :=
  match fs.createErr name with
  | some e => (fs, some e)
  | none => (fs.put name [], none)

/-- `f.WriteString` on a handle standing at offset 0: the bytes replace the
start of the file and what lies behind them stays.  When the write fails only
the first `n` bytes went out. -/
def WriteString (fs : FileSystem) (name : GoString) (data : GoString) :
    FileSystem × Option GoError :=
  let old := (fs.files name).getD []
  match fs.writeErr name data with
  | some (n, e) => (fs.put name (data.take n ++ old.drop (min n data.length)), some e)
  | none => (fs.put name (data ++ old.drop data.length), none)

/-! ## The YAML document and the decoder -/

/-- The keys a document may set under `metadata`; `none` is a missing key. -/
structure YamlMetadata where
  sender : Option GoString
  bccRecipients : Option (List GoString)
  slackChannel : Option GoString
  deriving DecidableEq, Repr

/-- The keys a document may set under `ticket`. -/
structure YamlTicket where
  rfc : Option GoString
  jiraTicket : Option GoString
  rfcSubstr : Option GoString
  deriving DecidableEq, Repr

/-- The keys a document may set under `service`. -/
structure YamlService where
  serviceName : Option GoString
  serviceDescription : Option GoString
  deriving DecidableEq, Repr

/-- The keys a document may set under `content`. -/
structure YamlContent where
  when : Option GoString
  whoIsBeingImpacted : Option GoString
  why : Option GoString
  outage : Option GoString
  deriving DecidableEq, Repr

/-- What a configuration file lists under the keys named by the `yaml` tags
of `main.go`, lines 34-67. -/
structure YamlDoc where
  metadata : Option YamlMetadata
  title : Option GoString
  summary : Option GoString
  ticket : Option YamlTicket
  service : Option YamlService
  content : Option YamlContent
  deriving DecidableEq, Repr

/-- The zero value of `mail`, as allocated by the decoder for a nil pointer. -/
def mail.zero : mail :=
  { Metadata := { Sender := [], bccRecipients := [], SlackChannel := [] }
    Title := []
    Summary := []
    Ticket := { RFC := [], JiraTicket := [], RFCSubstr := [] }
    Service := { ServiceName := [], ServiceDescription := [] }
    Content := { When := [], Who := [], Why := [], Outage := [] } }

/-- Decoding the `metadata` section into the Go struct.  `yaml.v2` sets
exported fields only: the key `bccRecipients` has no exported field to go to,
is skipped, and the field keeps the value it had. -/
def decodeMetadata (y : YamlMetadata) (old : metadata) : metadata :=
  { Sender := y.sender.getD old.Sender
    bccRecipients := old.bccRecipients
    SlackChannel := y.slackChannel.getD old.SlackChannel }

/-- Decoding the `ticket` section: the three fields are exported. -/
def decodeTicket (y : YamlTicket) (old : ticket) : ticket :=
  { RFC := y.rfc.getD old.RFC
    JiraTicket := y.jiraTicket.getD old.JiraTicket
    RFCSubstr := y.rfcSubstr.getD old.RFCSubstr }

/-- Decoding the `service` section. -/
def decodeService (y : YamlService) (old : service) : service :=
  { ServiceName := y.serviceName.getD old.ServiceName
    ServiceDescription := y.serviceDescription.getD old.ServiceDescription }

/-- Decoding the `content` section. -/
def decodeContent (y : YamlContent) (old : content) : content :=
  { When := y.when.getD old.When
    Who := y.whoIsBeingImpacted.getD old.Who
    Why := y.why.getD old.Why
    Outage := y.outage.getD old.Outage }

/-- Decoding a document into a `mail`: a key that is present sets its field, a
missing key leaves the field as it was. -/
def decodeMail (d : YamlDoc) (old : mail) : mail :=
  { Metadata := (d.metadata.map fun y => decodeMetadata y old.Metadata).getD old.Metadata
    Title := d.title.getD old.Title
    Summary := d.summary.getD old.Summary
    Ticket := (d.ticket.map fun y => decodeTicket y old.Ticket).getD old.Ticket
    Service := (d.service.map fun y => decodeService y old.Service).getD old.Service
    Content := (d.content.map fun y => decodeContent y old.Content).getD old.Content }

/-! ## The environment -/

/-- A parsed template: `Execute` on a record gives the text or an error. -/
structure Template where
  Execute : mail → Except GoError GoString

/-- The libraries and services the program calls.
* `yamlParse`: the YAML reader on a file content: the document (`none` for an
  empty or null document, or when nothing could be read) and the error
  `yaml.Unmarshal` reports (bad syntax, a value of the wrong type);
* `templateParse`: the template parser on a template source;
* `newSession`: `session.NewSession` for an account and a region;
* `sesSendEmail`: `SendEmail` of the SES client of that account and region;
  its output is never nil. -/
structure Env where
  yamlParse : GoString → Option YamlDoc × Option GoError
  templateParse : GoString → Except GoError Template
  newSession : GoString → GoString → Option GoError
  sesSendEmail : GoString → GoString → SendEmailInput → SendEmailOutput × Option GoError

/-- `yaml.Unmarshal(y, &m)` for `m : *mail`: a nil `m` is allocated when there
is a document to decode, and is left nil otherwise. -/
def yamlUnmarshal (env : Env) (y : GoString) (m : Option mail) : Option mail × Option GoError :=
  match env.yamlParse y with
  | (none, err) => (m, err)
  | (some doc, err) => (some (decodeMail doc (m.getD mail.zero)), err)

/-- `template.ParseFiles(tFile)`: reads the file, then parses it. -/
def templateParseFiles (env : Env) (fs : FileSystem) (tFile : GoString) :
    Except GoError Template :=
  match ReadFile fs tFile with
  | .error e => .error e
  | .ok src => env.templateParse src

/-! ## The operations of `main.go` -/

/-- What a run does to the outside, in order: each call of a sink and each
call a sink makes. -/
inductive Event where
  | saveFile (fileName : GoString) (htmlBody : GoString)
  | osCreate (fileName : GoString)
  | writeString (fileName : GoString) (data : GoString)
  | sendEmail (awsAccount : GoString) (awsRegion : GoString) (subject : GoString)
      (htmlBody : GoString)
  | newSESSession (awsAccount : GoString) (awsRegion : GoString)
  | assembleEmail (input : SendEmailInput)
  | sesSendEmail (input : SendEmailInput)
  deriving DecidableEq, Repr

/-- `parseHTMLBody` (`main.go`, lines 92-113), on a non-nil receiver. -/
def parseHTMLBody (env : Env) (fs : FileSystem) (m : mail) (tFile : GoString) :
    GoString × Option GoError :=
  match templateParseFiles env fs tFile with
  | .error err => ([], some err)
  | .ok t =>
    match t.Execute m with
    | .error err => ([], some err)
    | .ok b => (b, none)

/-- `readYaml` (`main.go`, lines 116-136); `m` is the receiver, nil in every
caller. -/
def readYaml (env : Env) (fs : FileSystem) (m : Option mail) (yamlFile : GoString) :
    Option mail × Option GoError :=
  match ReadFile fs yamlFile with
  | .error err => (m, some err)
  | .ok y =>
    match yamlUnmarshal env y m with
    | (m1, some err) => (m1, some err)
    | (m1, none) => (m1, none)

/-- `saveFile` (`main.go`, lines 141-165); the receiver is not used.  Returns
the file system it leaves, what it did, and its error. -/
def saveFile (fs : FileSystem) (fileName : GoString) (htmlBody : GoString) :
    FileSystem × List Event × Option GoError :=
  match osCreate fs fileName with
  | (fs1, some err) => (fs1, [.saveFile fileName htmlBody, .osCreate fileName], some err)
  | (fs1, none) =>
    match WriteString fs1 fileName htmlBody with
    | (fs2, some err) =>
      (fs2, [.saveFile fileName htmlBody, .osCreate fileName,
        .writeString fileName htmlBody], some err)
    | (fs2, none) =>
      (fs2, [.saveFile fileName htmlBody, .osCreate fileName,
        .writeString fileName htmlBody], none)

/-- `newSESSession` (`main.go`, lines 195-208): the client is identified by
the account and region it was made for. -/
def newSESSession (env : Env) (awsAccount : GoString) (awsRegion : GoString) :
    Except GoError (GoString × GoString) :=
  match env.newSession awsAccount awsRegion with
  | some err => .error err
  | none => .ok (awsAccount, awsRegion)

/-- `sendEmail` (`main.go`, lines 167-193).  The two branches on the kind of
the error differ in their log line only and return the same pair. -/
def sendEmail (env : Env) (m : mail) (awsAccount : GoString) (awsRegion : GoString)
    (subject : GoString) (htmlBody : GoString) :
    List Event × Option SendEmailOutput × Option GoError :=
  match newSESSession env awsAccount awsRegion with
  | .error err =>
    ([.sendEmail awsAccount awsRegion subject htmlBody,
      .newSESSession awsAccount awsRegion], none, some err)
  | .ok svc =>
    let input := assembleEmail m.Metadata.Sender m.Metadata.bccRecipients htmlBody subject
    match env.sesSendEmail svc.1 svc.2 input with
    | (seo, some err) =>
      ([.sendEmail awsAccount awsRegion subject htmlBody,
        .newSESSession awsAccount awsRegion, .assembleEmail input,
        .sesSendEmail input], some seo, some err)
    | (seo, none) =>
      ([.sendEmail awsAccount awsRegion subject htmlBody,
        .newSESSession awsAccount awsRegion, .assembleEmail input,
        .sesSendEmail input], some seo, none)

/-! ## The entry point -/

/-- Go `s[lo:]`: the bytes from offset `lo` on; a runtime panic (`none`) when
`lo` exceeds `len(s)`. -/
def sliceFrom (s : GoString) (lo : Nat) : Option GoString :=
  if lo ≤ s.length then some (s.drop lo) else none

/-- The statement `m.Ticket.RFCSubstr = m.Ticket.RFC[4:]` of `main.go`,
line 231; `none` when the slice expression panics. -/
def deriveRFCSubstr (m : mail) : Option mail :=
  match sliceFrom m.Ticket.RFC 4 with
  | none => none
  | some sub => some { m with Ticket := { m.Ticket with RFCSubstr := sub } }

/-- The subject of `main.go`, line 234: `fmt.Sprintf("%s - %s", m.Ticket.RFC, m.Title)`. -/
def subject (m : mail) : GoString :=
  m.Ticket.RFC ++ utf8 " - " ++ m.Title

/-- The file name of `main.go`, line 242:
`fmt.Sprintf("output/%s.html", m.Ticket.RFC)`. -/
def outputFileName (m : mail) : GoString :=
  utf8 "output/" ++ m.Ticket.RFC ++ utf8 ".html"

/-- The command-line flags of `main`. -/
structure Flags where
  awsRegion : GoString
  awsAccount : GoString
  valuesFile : GoString
  saveFile : Bool
  deriving DecidableEq, Repr

/-- The flags when the command line sets none (`main.go`, lines 211-221). -/
def Flags.default : Flags :=
  { awsRegion := utf8 "us-east-1"
    awsAccount := utf8 "tm-nonprod-Ops-Techops"
    valuesFile := utf8 "values/values.yml"
    saveFile := false }

/-- How the process ends: `os.Exit(code)` (`log.Fatalf` exits with 1, a
return from `main` with 0), or an unrecovered runtime panic. -/
inductive Exit where
  | status (code : Nat)
  | panic (msg : String)
  deriving DecidableEq, Repr

/-- The exit status seen by the caller of the process; the Go runtime ends a
panicking process with status 2. -/
def Exit.code : Exit → Nat
  | .status c => c
  | .panic _ => 2

/-- A finished run: what it did, the file system it leaves, and how it ended. -/
structure Run where
  trace : List Event
  fs : FileSystem
  exit : Exit

/-- `main` (`main.go`, lines 210-258), after `flag.Parse()`. -/
def main (env : Env) (fs : FileSystem) (flags : Flags) : Run :=
  match readYaml env fs none flags.valuesFile with
  | (_, some _) => { trace := [], fs := fs, exit := .status 1 }
  | (none, none) =>
    { trace := [], fs := fs, exit := .panic "invalid memory address or nil pointer dereference" }
  | (some m0, none) =>
    match deriveRFCSubstr m0 with
    | none => { trace := [], fs := fs, exit := .panic "slice bounds out of range" }
    | some m =>
      let subj := subject m
      match parseHTMLBody env fs m templateFile with
      | (_, some _) => { trace := [], fs := fs, exit := .status 1 }
      | (htmlBody, none) =>
        if flags.saveFile then
          match saveFile fs (outputFileName m) htmlBody with
          | (fs1, tr, some _) => { trace := tr, fs := fs1, exit := .status 1 }
          | (fs1, tr, none) => { trace := tr, fs := fs1, exit := .status 0 }
        else
          match sendEmail env m flags.awsAccount flags.awsRegion subj htmlBody with
          | (tr, _, some _) => { trace := tr, fs := fs, exit := .status 0 }
          | (tr, _, none) => { trace := tr, fs := fs, exit := .status 0 }

/-! ## Concrete inputs -/

/-- A configuration document: sender, two recipients, ticket and title. -/
def sampleDoc : YamlDoc :=
  { metadata := some
      { sender := some (utf8 "a@x.com")
        bccRecipients := some [utf8 "b@x.com", utf8 "c@x.com"]
        slackChannel := some (utf8 "gitlab") }
    title := some (utf8 "Network maintenance")
    summary := none
    ticket := some { rfc := some (utf8 "RFC-1234"), jiraTicket := none, rfcSubstr := none }
    service := none
    content := none }

/-- A file system holding a values file and the template, where nothing fails. -/
def sampleFs : FileSystem :=
  { files := fun q =>
      if q = utf8 "values/values.yml" then some (utf8 "values")
      else if q = templateFile then some (utf8 "template")
      else none
    readErr := fun _ => none
    createErr := fun _ => none
    writeErr := fun _ _ => none }

/-- The same file system without the template file. -/
def noTemplateFs : FileSystem :=
  { files := fun q => if q = utf8 "values/values.yml" then some (utf8 "values") else none
    readErr := fun _ => none
    createErr := fun _ => none
    writeErr := fun _ _ => none }

/-- An environment in which every call succeeds: the values file holds
`sampleDoc` and the template renders a doctype line followed by the title. -/
def sampleEnv : Env :=
  { yamlParse := fun _ => (some sampleDoc, none)
    templateParse := fun _ => .ok { Execute := fun m => .ok (utf8 "<!DOCTYPE html>" ++ m.Title) }
    newSession := fun _ _ => none
    sesSendEmail := fun _ _ _ => ({ MessageId := some (utf8 "id-1") }, none) }

/-- The environment `sampleEnv`, except that the provider rejects the message. -/
def rejectingEnv : Env :=
  { sampleEnv with
    sesSendEmail := fun _ _ _ => ({ MessageId := none }, some "MessageRejected") }

/-- The environment `sampleEnv`, except that no session can be created. -/
def noSessionEnv : Env :=
  { sampleEnv with newSession := fun _ _ => some "NoCredentialProviders" }

/-- The flags of a file-mode run. -/
def fileFlags : Flags := { Flags.default with saveFile := true }

/-- The record `readYaml` loads from `sampleDoc`. -/
def sampleMail : mail :=
  { mail.zero with
    Metadata := { Sender := utf8 "a@x.com", bccRecipients := [], SlackChannel := utf8 "gitlab" }
    Title := utf8 "Network maintenance"
    Ticket := { RFC := utf8 "RFC-1234", JiraTicket := [], RFCSubstr := [] } }

/-- A file system in which the output file exists with older, longer content. -/
def staleFs : FileSystem :=
  { files := fun q =>
      if q = utf8 "output/RFC-1234.html" then some (utf8 "an older and longer page") else none
    readErr := fun _ => none
    createErr := fun _ => none
    writeErr := fun _ _ => none }

/-- The record `sampleMail` after the derivation step. -/
def derivedSampleMail : mail :=
  { sampleMail with Ticket := { sampleMail.Ticket with RFCSubstr := utf8 "1234" } }

/-! ## The request built by `assembleEmail` -/

/-- C1: for every sender, recipient list, HTML body and subject, the request
returned by `assembleEmail` has `Source` equal to the sender,
`Message.Body.Html.Data` equal to the HTML body and `Message.Subject.Data`
equal to the subject; the three are present (no nil on the way). -/
theorem assembleEmail_source_body_subject (sender : GoString) (bccRecipients : List GoString)
    (htmlBody : GoString) (subj : GoString) :
    (assembleEmail sender bccRecipients htmlBody subj).Source = some sender ∧
    (assembleEmail sender bccRecipients htmlBody subj).htmlContent.bind (fun c => c.Data)
      = some htmlBody ∧
    (assembleEmail sender bccRecipients htmlBody subj).subjectContent.bind (fun c => c.Data)
      = some subj := by
  refine ⟨rfl, rfl, rfl⟩

/-- C2: for every recipient list, the request returned by `assembleEmail`
carries exactly that list as its BCC addresses (same length, same order, a
non-nil pointer to each address), has no To and no Cc addresses, and has
charset "UTF-8" on the HTML body and on the subject. -/
theorem assembleEmail_bcc_and_charset (sender : GoString) (bccRecipients : List GoString)
    (htmlBody : GoString) (subj : GoString) :
    (assembleEmail sender bccRecipients htmlBody subj).Destination
      = some { BccAddresses := bccRecipients.map some, CcAddresses := [], ToAddresses := [] } ∧
    (bccRecipients.map some).length = bccRecipients.length ∧
    (∀ i : Nat, (bccRecipients.map some)[i]? = bccRecipients[i]?.map some) ∧
    (bccRecipients.map some).filterMap id = bccRecipients ∧
    (assembleEmail sender bccRecipients htmlBody subj).htmlContent.bind (fun c => c.Charset)
      = some (utf8 "UTF-8") ∧
    (assembleEmail sender bccRecipients htmlBody subj).subjectContent.bind (fun c => c.Charset)
      = some (utf8 "UTF-8") := by
  refine ⟨rfl, List.length_map _ _, fun i => ?_, ?_, rfl, rfl⟩
  · simp
  · induction bccRecipients with
    | nil => rfl
    | cons a l ih => simp

/-! ## The derived field -/

theorem sliceFrom_eq_none_iff (s : GoString) (lo : Nat) :
    sliceFrom s lo = none ↔ s.length < lo := by
  unfold sliceFrom
  split <;> simp <;> omega

theorem sliceFrom_eq_some_iff (s : GoString) (lo : Nat) (r : GoString) :
    sliceFrom s lo = some r ↔ lo ≤ s.length ∧ r = s.drop lo := by
  unfold sliceFrom
  split
  · simp only [Option.some.injEq]
    constructor
    · intro h
      exact ⟨by assumption, h.symm⟩
    · intro h
      exact h.2.symm
  · simp
    intro h
    omega

theorem deriveRFCSubstr_eq_some_iff (m : mail) (m1 : mail) :
    deriveRFCSubstr m = some m1 ↔
      4 ≤ m.Ticket.RFC.length ∧
      m1 = { m with Ticket := { m.Ticket with RFCSubstr := m.Ticket.RFC.drop 4 } } := by
  unfold deriveRFCSubstr
  cases h : sliceFrom m.Ticket.RFC 4 with
  | none =>
    have := (sliceFrom_eq_none_iff _ _).1 h
    simp
    omega
  | some sub =>
    obtain ⟨h1, h2⟩ := (sliceFrom_eq_some_iff _ _ _).1 h
    subst h2
    simp only [Option.some.injEq]
    constructor
    · intro e
      exact ⟨h1, e.symm⟩
    · intro e
      exact e.2.symm

/-- C5, as the code has it: the derived-field computation `m.Ticket.RFC[4:]`
fails exactly for the ticket identifiers of fewer than 4 bytes (the empty one
among them) and succeeds for every identifier of at least 4 bytes; at the
boundary length 4 it succeeds with an empty derived field. -/
theorem derive_fails_iff_shorter_than_four (m : mail) :
    (deriveRFCSubstr m = none ↔ m.Ticket.RFC.length < 4) ∧
    ((deriveRFCSubstr m).isSome = true ↔ 4 ≤ m.Ticket.RFC.length) ∧
    (sliceFrom m.Ticket.RFC 4 = none ↔ m.Ticket.RFC.length < 4) ∧
    (m.Ticket.RFC.length = 4 ↔
      (deriveRFCSubstr m).map (fun r => r.Ticket.RFCSubstr) = some []) := by
  have key : deriveRFCSubstr m = none ↔ m.Ticket.RFC.length < 4 := by
    unfold deriveRFCSubstr
    cases h : sliceFrom m.Ticket.RFC 4 with
    | none => simpa using (sliceFrom_eq_none_iff _ _).1 h
    | some sub =>
      have := ((sliceFrom_eq_some_iff _ _ _).1 h).1
      simp
      omega
  refine ⟨key, ?_, sliceFrom_eq_none_iff _ _, ?_⟩
  · rw [Option.isSome_iff_ne_none, Ne, key]
    omega
  · cases h : deriveRFCSubstr m with
    | none =>
      have := key.1 h
      simp
      omega
    | some m1 =>
      obtain ⟨h1, h2⟩ := (deriveRFCSubstr_eq_some_iff _ _).1 h
      subst h2
      simp only [Option.map_some', Option.some.injEq, List.drop_eq_nil_iff]
      omega

/-- C5, as the claim has it, fails: the identifier "RFC-" has 4 bytes (and 4
characters), fewer than 5, and the derivation succeeds on it with an empty
derived field; an identifier of two 2-byte characters succeeds as well. -/
theorem derive_succeeds_at_length_four :
    (utf8 "RFC-").length = 4 ∧
    sliceFrom (utf8 "RFC-") 4 = some [] ∧
    deriveRFCSubstr { sampleMail with Ticket := { sampleMail.Ticket with RFC := utf8 "RFC-" } }
      = some { sampleMail with Ticket := { sampleMail.Ticket with RFC := utf8 "RFC-" } } ∧
    sliceFrom (utf8 "éé") 4 = some [] ∧
    ¬ (∀ m : mail, m.Ticket.RFC.length < 5 → deriveRFCSubstr m = none) := by
  refine ⟨by decide, by decide, by decide, by decide, fun h => ?_⟩
  have h1 := h { sampleMail with Ticket := { sampleMail.Ticket with RFC := utf8 "RFC-" } }
    (by decide)
  revert h1
  decide

/-- C10: when the derivation succeeds, `RFCSubstr` is the identifier without
its first 4 bytes: the first 4 bytes followed by `RFCSubstr` give the
identifier back, its length is the length of the identifier minus 4, for
"RFC-1234" it is "1234"; and no other field of the record changes. -/
theorem derive_drops_first_four_bytes (m : mail) (m1 : mail)
    (h : deriveRFCSubstr m = some m1) :
    m1.Ticket.RFCSubstr = m.Ticket.RFC.drop 4 ∧
    m.Ticket.RFC.take 4 ++ m1.Ticket.RFCSubstr = m.Ticket.RFC ∧
    (m.Ticket.RFC.take 4).length = 4 ∧
    m1.Ticket.RFCSubstr.length = m.Ticket.RFC.length - 4 ∧
    (m.Ticket.RFC = utf8 "RFC-1234" → m1.Ticket.RFCSubstr = utf8 "1234") ∧
    m1.Ticket.RFC = m.Ticket.RFC ∧
    m1.Ticket.JiraTicket = m.Ticket.JiraTicket ∧
    m1.Metadata = m.Metadata ∧
    m1.Title = m.Title ∧
    m1.Summary = m.Summary ∧
    m1.Service = m.Service ∧
    m1.Content = m.Content := by
  obtain ⟨h1, h2⟩ := (deriveRFCSubstr_eq_some_iff _ _).1 h
  subst h2
  refine ⟨rfl, List.take_append_drop _ _, ?_, ?_, ?_, rfl, rfl, rfl, rfl, rfl, rfl, rfl⟩
  · simp only [List.length_take]
    omega
  · simp only [List.length_drop]
  · intro e
    simp only [e]
    decide

/-- C10 at the record whose ticket is "RFC-1234". -/
theorem derive_drops_first_four_bytes_witness :
    deriveRFCSubstr sampleMail = some derivedSampleMail ∧
    derivedSampleMail.Ticket.RFCSubstr = utf8 "1234" ∧
    derivedSampleMail.Ticket.RFCSubstr = List.drop 4 sampleMail.Ticket.RFC ∧
    List.take 4 sampleMail.Ticket.RFC ++ derivedSampleMail.Ticket.RFCSubstr
      = sampleMail.Ticket.RFC :=
  ⟨by decide, by decide,
    (derive_drops_first_four_bytes sampleMail derivedSampleMail (by decide)).1,
    (derive_drops_first_four_bytes sampleMail derivedSampleMail (by decide)).2.1⟩

/-! ## The file sink -/

theorem put_files_self (fs : FileSystem) (name : GoString) (c : GoString) :
    (fs.put name c).files name = some c := by
  simp [FileSystem.put]

theorem put_files_other (fs : FileSystem) (name : GoString) (c : GoString) (q : GoString)
    (h : q ≠ name) : (fs.put name c).files q = fs.files q := by
  simp [FileSystem.put, h]

theorem put_put (fs : FileSystem) (name : GoString) (a : GoString) (b : GoString) :
    (fs.put name a).put name b = fs.put name b := by
  unfold FileSystem.put
  congr 1
  funext q
  by_cases h : q = name <;> simp [h]

/-- What `saveFile` leaves and returns, by the outcome of its two calls. -/
theorem saveFile_result (fs : FileSystem) (fileName : GoString) (htmlBody : GoString) :
    (∃ e, fs.createErr fileName = some e ∧
      (saveFile fs fileName htmlBody).1 = fs ∧
      (saveFile fs fileName htmlBody).2.2 = some e) ∨
    (∃ n e, fs.createErr fileName = none ∧ fs.writeErr fileName htmlBody = some (n, e) ∧
      (saveFile fs fileName htmlBody).1 = fs.put fileName (htmlBody.take n) ∧
      (saveFile fs fileName htmlBody).2.2 = some e) ∨
    (fs.createErr fileName = none ∧ fs.writeErr fileName htmlBody = none ∧
      (saveFile fs fileName htmlBody).1 = fs.put fileName htmlBody ∧
      (saveFile fs fileName htmlBody).2.2 = none) := by
  cases hc : fs.createErr fileName with
  | some e =>
    left
    exact ⟨e, rfl, by simp [saveFile, osCreate, hc], by simp [saveFile, osCreate, hc]⟩
  | none =>
    right
    have hw0 : (fs.put fileName []).writeErr fileName htmlBody
        = fs.writeErr fileName htmlBody := rfl
    cases hw : fs.writeErr fileName htmlBody with
    | some ne =>
      left
      obtain ⟨n, e⟩ := ne
      refine ⟨n, e, rfl, rfl, ?_, ?_⟩
      · simp [saveFile, osCreate, hc, WriteString, hw0, hw, put_files_self, put_put]
      · simp [saveFile, osCreate, hc, WriteString, hw0, hw]
    | none =>
      right
      refine ⟨rfl, rfl, ?_, ?_⟩
      · simp [saveFile, osCreate, hc, WriteString, hw0, hw, put_files_self, put_put]
      · simp [saveFile, osCreate, hc, WriteString, hw0, hw]

/-- C8: calling `saveFile` twice in succession with the same path and body
leaves the file system that one call leaves, and returns the same error; when
the call succeeds the file at the path holds exactly the body after one call
and after two, whatever the path held before (overwrite, not append), the
second call succeeds too, and no other file changes. -/
theorem saveFile_idempotent (fs : FileSystem) (fileName : GoString) (htmlBody : GoString) :
    (saveFile (saveFile fs fileName htmlBody).1 fileName htmlBody).1
      = (saveFile fs fileName htmlBody).1 ∧
    (saveFile (saveFile fs fileName htmlBody).1 fileName htmlBody).2.2
      = (saveFile fs fileName htmlBody).2.2 ∧
    ((saveFile fs fileName htmlBody).2.2 = none →
      (saveFile fs fileName htmlBody).1.files fileName = some htmlBody ∧
      (saveFile (saveFile fs fileName htmlBody).1 fileName htmlBody).2.2 = none ∧
      (saveFile (saveFile fs fileName htmlBody).1 fileName htmlBody).1.files fileName
        = some htmlBody ∧
      ∀ q, q ≠ fileName → (saveFile fs fileName htmlBody).1.files q = fs.files q) := by
  rcases saveFile_result fs fileName htmlBody with
    ⟨e, hc, h1, h2⟩ | ⟨n, e, hc, hw, h1, h2⟩ | ⟨hc, hw, h1, h2⟩
  · rw [h1, h2]
    exact ⟨h1, rfl, fun h => by simp at h⟩
  · have hc1 : (fs.put fileName (htmlBody.take n)).createErr fileName = none := hc
    have hw1 : (fs.put fileName (htmlBody.take n)).writeErr fileName htmlBody
        = some (n, e) := hw
    rcases saveFile_result (fs.put fileName (htmlBody.take n)) fileName htmlBody with
      ⟨e1, hc2, _, _⟩ | ⟨n1, e1, _, hw2, k1, k2⟩ | ⟨_, hw2, _, _⟩
    · rw [hc1] at hc2
      simp at hc2
    · rw [hw1] at hw2
      simp only [Option.some.injEq, Prod.mk.injEq] at hw2
      obtain ⟨rfl, rfl⟩ := hw2
      rw [h1, h2, k1, k2, put_put]
      exact ⟨rfl, rfl, fun h => by simp at h⟩
    · rw [hw1] at hw2
      simp at hw2
  · have hc1 : (fs.put fileName htmlBody).createErr fileName = none := hc
    have hw1 : (fs.put fileName htmlBody).writeErr fileName htmlBody = none := hw
    rcases saveFile_result (fs.put fileName htmlBody) fileName htmlBody with
      ⟨e1, hc2, _, _⟩ | ⟨n1, e1, _, hw2, _, _⟩ | ⟨_, _, k1, k2⟩
    · rw [hc1] at hc2
      simp at hc2
    · rw [hw1] at hw2
      simp at hw2
    · rw [h1, h2, k1, k2, put_put]
      exact ⟨rfl, rfl, fun _ => ⟨put_files_self _ _ _, rfl, put_files_self _ _ _,
        fun q hq => put_files_other _ _ _ _ hq⟩⟩

/-- C8 on a file that exists with other content: one call and two calls both
leave exactly the new body. -/
theorem saveFile_idempotent_witness :
    staleFs.files (utf8 "output/RFC-1234.html") = some (utf8 "an older and longer page") ∧
    (saveFile staleFs (utf8 "output/RFC-1234.html") (utf8 "<p>hi</p>")).2.2 = none ∧
    (saveFile staleFs (utf8 "output/RFC-1234.html") (utf8 "<p>hi</p>")).1.files
      (utf8 "output/RFC-1234.html") = some (utf8 "<p>hi</p>") ∧
    (saveFile (saveFile staleFs (utf8 "output/RFC-1234.html") (utf8 "<p>hi</p>")).1
      (utf8 "output/RFC-1234.html") (utf8 "<p>hi</p>")).1.files
      (utf8 "output/RFC-1234.html") = some (utf8 "<p>hi</p>") :=
  ⟨by decide, by decide,
    ((saveFile_idempotent staleFs (utf8 "output/RFC-1234.html") (utf8 "<p>hi</p>")).2.2
      (by decide)).1,
    ((saveFile_idempotent staleFs (utf8 "output/RFC-1234.html") (utf8 "<p>hi</p>")).2.2
      (by decide)).2.2.1⟩

/-! ## The entry point, path by path -/

theorem main_load_error (env : Env) (fs : FileSystem) (flags : Flags)
    (h : (readYaml env fs none flags.valuesFile).2 ≠ none) :
    main env fs flags = { trace := [], fs := fs, exit := .status 1 } := by
  unfold main
  rcases hr : readYaml env fs none flags.valuesFile with ⟨a, b⟩
  rw [hr] at h
  cases b with
  | none => exact absurd rfl h
  | some e => cases a <;> rfl

theorem main_load_nil (env : Env) (fs : FileSystem) (flags : Flags)
    (h : readYaml env fs none flags.valuesFile = (none, none)) :
    main env fs flags =
      { trace := [], fs := fs, exit := .panic "invalid memory address or nil pointer dereference" } := by
  unfold main
  rw [h]

theorem main_derive_panic (env : Env) (fs : FileSystem) (flags : Flags) (m0 : mail)
    (hload : readYaml env fs none flags.valuesFile = (some m0, none))
    (hder : deriveRFCSubstr m0 = none) :
    main env fs flags = { trace := [], fs := fs, exit := .panic "slice bounds out of range" } := by
  unfold main
  rw [hload]
  simp only [hder]

theorem main_render_error (env : Env) (fs : FileSystem) (flags : Flags) (m0 : mail) (m : mail)
    (hload : readYaml env fs none flags.valuesFile = (some m0, none))
    (hder : deriveRFCSubstr m0 = some m)
    (hrender : (parseHTMLBody env fs m templateFile).2 ≠ none) :
    main env fs flags = { trace := [], fs := fs, exit := .status 1 } := by
  unfold main
  rw [hload]
  simp only [hder]
  rcases hr : parseHTMLBody env fs m templateFile with ⟨a, b⟩
  rw [hr] at hrender
  cases b with
  | none => exact absurd rfl hrender
  | some e => rfl

theorem main_file_mode (env : Env) (fs : FileSystem) (flags : Flags) (m0 : mail) (m : mail)
    (htmlBody : GoString)
    (hload : readYaml env fs none flags.valuesFile = (some m0, none))
    (hder : deriveRFCSubstr m0 = some m)
    (hrender : parseHTMLBody env fs m templateFile = (htmlBody, none))
    (hmode : flags.saveFile = true) :
    (main env fs flags).trace = (saveFile fs (outputFileName m) htmlBody).2.1 ∧
    (main env fs flags).fs = (saveFile fs (outputFileName m) htmlBody).1 ∧
    (main env fs flags).exit
      = .status (if (saveFile fs (outputFileName m) htmlBody).2.2 = none then 0 else 1) := by
  unfold main
  rw [hload]
  simp only [hder, hrender, hmode, if_true]
  rcases hs : saveFile fs (outputFileName m) htmlBody with ⟨fs1, tr, err⟩
  cases err <;> simp

theorem main_send_mode (env : Env) (fs : FileSystem) (flags : Flags) (m0 : mail) (m : mail)
    (htmlBody : GoString)
    (hload : readYaml env fs none flags.valuesFile = (some m0, none))
    (hder : deriveRFCSubstr m0 = some m)
    (hrender : parseHTMLBody env fs m templateFile = (htmlBody, none))
    (hmode : flags.saveFile = false) :
    (main env fs flags).trace
      = (sendEmail env m flags.awsAccount flags.awsRegion (subject m) htmlBody).1 ∧
    (main env fs flags).fs = fs ∧
    (main env fs flags).exit = .status 0 := by
  unfold main
  rw [hload]
  simp only [hder, hrender, hmode]
  rcases hs : sendEmail env m flags.awsAccount flags.awsRegion (subject m) htmlBody
    with ⟨tr, seo, err⟩
  cases err <;> simp

/-- A missing template file makes `parseHTMLBody` fail. -/
theorem parseHTMLBody_missing_file (env : Env) (fs : FileSystem) (m : mail) (tFile : GoString)
    (h : fs.files tFile = none) :
    parseHTMLBody env fs m tFile = ([], some "no such file or directory") := by
  simp [parseHTMLBody, templateParseFiles, ReadFile, h]

/-- The events of `saveFile`: its own call first; every `saveFile` event in
them is that call. -/
theorem saveFile_trace (fs : FileSystem) (fileName : GoString) (htmlBody : GoString) :
    (saveFile fs fileName htmlBody).2.1.head? = some (.saveFile fileName htmlBody) ∧
    ∀ p b, Event.saveFile p b ∈ (saveFile fs fileName htmlBody).2.1 →
      p = fileName ∧ b = htmlBody := by
  unfold saveFile
  split
  · simp
  · split <;> simp

/-- The events of `saveFile` are its own call and the two file calls. -/
theorem saveFile_events (fs : FileSystem) (fileName : GoString) (htmlBody : GoString)
    (ev : Event) (h : ev ∈ (saveFile fs fileName htmlBody).2.1) :
    ev = .saveFile fileName htmlBody ∨ ev = .osCreate fileName ∨
      ev = .writeString fileName htmlBody := by
  unfold saveFile at h
  split at h
  · simp at h
    tauto
  · split at h <;> simp at h <;> tauto

/-- The events of `sendEmail`: its own call first; the request it assembles
and the request it submits are `assembleEmail` of the sender and recipients of
the record, the body and the subject. -/
theorem sendEmail_trace (env : Env) (m : mail) (acct : GoString) (region : GoString)
    (subj : GoString) (htmlBody : GoString) :
    (sendEmail env m acct region subj htmlBody).1.head?
      = some (.sendEmail acct region subj htmlBody) ∧
    (∀ a r s b, Event.sendEmail a r s b ∈ (sendEmail env m acct region subj htmlBody).1 →
      a = acct ∧ r = region ∧ s = subj ∧ b = htmlBody) ∧
    (∀ input, (Event.assembleEmail input ∈ (sendEmail env m acct region subj htmlBody).1 ∨
        Event.sesSendEmail input ∈ (sendEmail env m acct region subj htmlBody).1) →
      input = assembleEmail m.Metadata.Sender m.Metadata.bccRecipients htmlBody subj) := by
  unfold sendEmail
  split
  · simp
  · simp only
    split <;> simp

/-! ## The claims about the entry point -/

/-- C4: the subject the entry point builds is the ticket identifier of the
loaded record, then the three bytes of " - ", then its title, both in the call
of `sendEmail` and in the request assembled from it; for ticket "RFC-1234"
and title "Network maintenance" it is "RFC-1234 - Network maintenance".  The
identifier is the loaded one: the derivation step does not change it. -/
theorem subject_is_ticket_dash_title (env : Env) (fs : FileSystem) (flags : Flags) (m0 : mail)
    (acct : GoString) (region : GoString) (subj : GoString) (htmlBody : GoString)
    (hload : readYaml env fs none flags.valuesFile = (some m0, none))
    (hev : Event.sendEmail acct region subj htmlBody ∈ (main env fs flags).trace) :
    subj = m0.Ticket.RFC ++ [32, 45, 32] ++ m0.Title ∧
    subj = subject m0 ∧
    (∀ m, deriveRFCSubstr m0 = some m → subject m = subject m0) ∧
    (∀ input, Event.assembleEmail input ∈ (main env fs flags).trace →
      input.subjectContent.bind (fun c => c.Data) = some subj) ∧
    (m0.Ticket.RFC = utf8 "RFC-1234" → m0.Title = utf8 "Network maintenance" →
      subj = utf8 "RFC-1234 - Network maintenance") := by
  have hsubj : ∀ m, deriveRFCSubstr m0 = some m → subject m = subject m0 := by
    intro m hm
    obtain ⟨_, rfl⟩ := (deriveRFCSubstr_eq_some_iff _ _).1 hm
    rfl
  have hbytes : subject m0 = m0.Ticket.RFC ++ [32, 45, 32] ++ m0.Title := rfl
  cases hder : deriveRFCSubstr m0 with
  | none =>
    rw [main_derive_panic env fs flags m0 hload hder] at hev
    simp at hev
  | some m =>
    rcases hr : parseHTMLBody env fs m templateFile with ⟨body, rerr⟩
    cases rerr with
    | some e =>
      rw [main_render_error env fs flags m0 m hload hder (by simp [hr])] at hev
      simp at hev
    | none =>
      cases hmode : flags.saveFile with
      | true =>
        rw [(main_file_mode env fs flags m0 m body hload hder hr hmode).1] at hev
        rcases saveFile_events fs (outputFileName m) body _ hev with h | h | h <;> simp at h
      | false =>
        have htr := (main_send_mode env fs flags m0 m body hload hder hr hmode).1
        rw [htr] at hev
        obtain ⟨_, hcall, hreq⟩ :=
          sendEmail_trace env m flags.awsAccount flags.awsRegion (subject m) body
        obtain ⟨_, _, hs, hb⟩ := hcall _ _ _ _ hev
        have hs0 : subj = subject m0 := by rw [hs, hsubj m hder]
        refine ⟨by rw [hs0, hbytes], hs0, fun m1 h1 => hsubj m1 (hder.trans h1), ?_, ?_⟩
        · intro input hin
          rw [htr] at hin
          rw [hreq input (Or.inl hin), hs]
          rfl
        · intro h1 h2
          rw [hs0, hbytes, h1, h2]
          decide

/-- C4 on the sample configuration, in send mode. -/
theorem subject_is_ticket_dash_title_witness :
    readYaml sampleEnv sampleFs none Flags.default.valuesFile = (some sampleMail, none) ∧
    Event.sendEmail (utf8 "tm-nonprod-Ops-Techops") (utf8 "us-east-1")
        (utf8 "RFC-1234 - Network maintenance") (utf8 "<!DOCTYPE html>Network maintenance")
      ∈ (main sampleEnv sampleFs Flags.default).trace ∧
    utf8 "RFC-1234 - Network maintenance"
      = sampleMail.Ticket.RFC ++ [32, 45, 32] ++ sampleMail.Title :=
  ⟨by decide, by decide,
    (subject_is_ticket_dash_title sampleEnv sampleFs Flags.default sampleMail
      (utf8 "tm-nonprod-Ops-Techops") (utf8 "us-east-1")
      (utf8 "RFC-1234 - Network maintenance") (utf8 "<!DOCTYPE html>Network maintenance")
      (by decide) (by decide)).1⟩

/-- C7: when loading the configuration fails, or rendering the template
fails, or the template file does not exist, the run invokes neither sink: it
calls nothing (no file is created or written, no request is assembled, no
session is opened, no send is attempted), leaves the file system as it was,
and ends with a non-zero status. -/
theorem no_sink_when_load_or_render_fails (env : Env) (fs : FileSystem) (flags : Flags)
    (h : (readYaml env fs none flags.valuesFile).2 ≠ none ∨
      (∃ m0 m, readYaml env fs none flags.valuesFile = (some m0, none) ∧
        deriveRFCSubstr m0 = some m ∧ (parseHTMLBody env fs m templateFile).2 ≠ none) ∨
      fs.files templateFile = none) :
    (main env fs flags).trace = [] ∧
    (main env fs flags).fs = fs ∧
    (main env fs flags).exit.code ≠ 0 := by
  have render : ∀ m0 m, readYaml env fs none flags.valuesFile = (some m0, none) →
      deriveRFCSubstr m0 = some m → (parseHTMLBody env fs m templateFile).2 ≠ none →
      (main env fs flags).trace = [] ∧ (main env fs flags).fs = fs ∧
        (main env fs flags).exit.code ≠ 0 := by
    intro m0 m hload hder hr
    rw [main_render_error env fs flags m0 m hload hder hr]
    exact ⟨rfl, rfl, by simp [Exit.code]⟩
  have load : (readYaml env fs none flags.valuesFile).2 ≠ none →
      (main env fs flags).trace = [] ∧ (main env fs flags).fs = fs ∧
        (main env fs flags).exit.code ≠ 0 := by
    intro hl
    rw [main_load_error env fs flags hl]
    exact ⟨rfl, rfl, by simp [Exit.code]⟩
  rcases h with hl | ⟨m0, m, hload, hder, hr⟩ | hmiss
  · exact load hl
  · exact render m0 m hload hder hr
  · rcases hy : readYaml env fs none flags.valuesFile with ⟨a, b⟩
    cases b with
    | some e => exact load (by simp [hy])
    | none =>
      cases a with
      | none =>
        rw [main_load_nil env fs flags hy]
        exact ⟨rfl, rfl, by simp [Exit.code]⟩
      | some m0 =>
        cases hder : deriveRFCSubstr m0 with
        | none =>
          rw [main_derive_panic env fs flags m0 hy hder]
          exact ⟨rfl, rfl, by simp [Exit.code]⟩
        | some m =>
          exact render m0 m hy hder
            (by simp [parseHTMLBody_missing_file env fs m templateFile hmiss])

/-- C7 on a file system without the template file, in file mode. -/
theorem no_sink_when_load_or_render_fails_witness :
    noTemplateFs.files templateFile = none ∧
    (main sampleEnv noTemplateFs fileFlags).trace = [] ∧
    (main sampleEnv noTemplateFs fileFlags).exit.code = 1 :=
  ⟨by decide,
    (no_sink_when_load_or_render_fails sampleEnv noTemplateFs fileFlags
      (Or.inr (Or.inr (by decide)))).1,
    by decide⟩

/-- C9: in file mode, when loading, derivation and rendering succeed, the
file sink is called once, first of all, with the path "output/" followed by
the full ticket identifier of the loaded record followed by ".html", and with
exactly the rendered HTML body; for ticket "RFC-1234" the path is
"output/RFC-1234.html". -/
theorem file_mode_path_and_content (env : Env) (fs : FileSystem) (flags : Flags) (m0 : mail)
    (m : mail) (htmlBody : GoString)
    (hmode : flags.saveFile = true)
    (hload : readYaml env fs none flags.valuesFile = (some m0, none))
    (hder : deriveRFCSubstr m0 = some m)
    (hrender : parseHTMLBody env fs m templateFile = (htmlBody, none)) :
    (main env fs flags).trace.head?
      = some (.saveFile (utf8 "output/" ++ m0.Ticket.RFC ++ utf8 ".html") htmlBody) ∧
    (∀ p b, Event.saveFile p b ∈ (main env fs flags).trace →
      p = utf8 "output/" ++ m0.Ticket.RFC ++ utf8 ".html" ∧ b = htmlBody) ∧
    (main env fs flags).trace
      = (saveFile fs (utf8 "output/" ++ m0.Ticket.RFC ++ utf8 ".html") htmlBody).2.1 ∧
    (main env fs flags).fs
      = (saveFile fs (utf8 "output/" ++ m0.Ticket.RFC ++ utf8 ".html") htmlBody).1 ∧
    (m0.Ticket.RFC = utf8 "RFC-1234" →
      utf8 "output/" ++ m0.Ticket.RFC ++ utf8 ".html" = utf8 "output/RFC-1234.html") := by
  obtain ⟨htr, hfs, _⟩ := main_file_mode env fs flags m0 m htmlBody hload hder hrender hmode
  have hname : outputFileName m = utf8 "output/" ++ m0.Ticket.RFC ++ utf8 ".html" := by
    obtain ⟨_, rfl⟩ := (deriveRFCSubstr_eq_some_iff _ _).1 hder
    rfl
  rw [hname] at htr hfs
  rw [htr, hfs]
  refine ⟨(saveFile_trace _ _ _).1, (saveFile_trace _ _ _).2, rfl, rfl, ?_⟩
  intro e
  rw [e]
  decide

/-- C9 on the sample configuration. -/
theorem file_mode_path_and_content_witness :
    fileFlags.saveFile = true ∧
    readYaml sampleEnv sampleFs none fileFlags.valuesFile = (some sampleMail, none) ∧
    deriveRFCSubstr sampleMail = some derivedSampleMail ∧
    parseHTMLBody sampleEnv sampleFs derivedSampleMail templateFile
      = (utf8 "<!DOCTYPE html>Network maintenance", none) ∧
    (main sampleEnv sampleFs fileFlags).trace.head?
      = some (.saveFile (utf8 "output/" ++ sampleMail.Ticket.RFC ++ utf8 ".html")
          (utf8 "<!DOCTYPE html>Network maintenance")) ∧
    (main sampleEnv sampleFs fileFlags).fs.files (utf8 "output/RFC-1234.html")
      = some (utf8 "<!DOCTYPE html>Network maintenance") :=
  ⟨by decide, by decide, by decide, by decide,
    (file_mode_path_and_content sampleEnv sampleFs fileFlags sampleMail derivedSampleMail
      (utf8 "<!DOCTYPE html>Network maintenance") (by decide) (by decide) (by decide)
      (by decide)).1,
    by decide⟩

/-- The decoder never sets the unexported field: whatever the configuration
file lists, a record loaded into a nil receiver has no BCC recipients. -/
theorem readYaml_bccRecipients_nil (env : Env) (fs : FileSystem) (yamlFile : GoString)
    (m : mail) (err : Option GoError)
    (h : readYaml env fs none yamlFile = (some m, err)) :
    m.Metadata.bccRecipients = [] := by
  unfold readYaml at h
  split at h
  · simp at h
  · have key : ∀ y m1 e1, yamlUnmarshal env y none = (some m1, e1) →
        m1.Metadata.bccRecipients = [] := by
      intro y m1 e1 hy
      unfold yamlUnmarshal at hy
      split at hy
      · simp at hy
      · rename_i doc err1 _
        simp only [Prod.mk.injEq, Option.some.injEq] at hy
        obtain ⟨rfl, _⟩ := hy
        cases hmd : doc.metadata <;> simp [decodeMail, decodeMetadata, hmd, mail.zero]
    split at h
    · rename_i y _ m1 e1 hy
      simp only [Prod.mk.injEq] at h
      obtain ⟨rfl, _⟩ := h
      exact key _ _ _ hy
    · rename_i y _ m1 hy
      simp only [Prod.mk.injEq] at h
      obtain ⟨rfl, _⟩ := h
      exact key _ _ _ hy

/-- C3, where the code departs from it: the sample configuration lists two
recipients under `metadata.bccRecipients`, the record loaded from it has none,
and the request the send-mode run submits has an empty BCC list (its source
is the configured sender). -/
theorem configured_recipients_are_dropped :
    sampleDoc.metadata.bind (fun y => y.bccRecipients)
      = some [utf8 "b@x.com", utf8 "c@x.com"] ∧
    readYaml sampleEnv sampleFs none Flags.default.valuesFile = (some sampleMail, none) ∧
    sampleMail.Metadata.bccRecipients = [] ∧
    (main sampleEnv sampleFs Flags.default).trace.getLast?
      = some (.sesSendEmail
          (assembleEmail (utf8 "a@x.com") [] (utf8 "<!DOCTYPE html>Network maintenance")
            (utf8 "RFC-1234 - Network maintenance"))) ∧
    (assembleEmail (utf8 "a@x.com") [] (utf8 "<!DOCTYPE html>Network maintenance")
      (utf8 "RFC-1234 - Network maintenance")).bcc = some [] ∧
    (assembleEmail (utf8 "a@x.com") [] (utf8 "<!DOCTYPE html>Network maintenance")
      (utf8 "RFC-1234 - Network maintenance")).Source = some (utf8 "a@x.com") := by
  refine ⟨by decide, by decide, by decide, by decide, by decide, by decide⟩

/-- C6, where the code departs from it: when the provider rejects the message,
and when no session can be created, `sendEmail` returns an error, and the
send-mode run ends with status 0. -/
theorem failed_send_exits_zero :
    (sendEmail rejectingEnv derivedSampleMail Flags.default.awsAccount Flags.default.awsRegion
      (subject derivedSampleMail) (utf8 "<!DOCTYPE html>Network maintenance")).2.2
      = some "MessageRejected" ∧
    (main rejectingEnv sampleFs Flags.default).exit = .status 0 ∧
    (main rejectingEnv sampleFs Flags.default).exit.code = 0 ∧
    (sendEmail noSessionEnv derivedSampleMail Flags.default.awsAccount Flags.default.awsRegion
      (subject derivedSampleMail) (utf8 "<!DOCTYPE html>Network maintenance")).2.2
      = some "NoCredentialProviders" ∧
    (main noSessionEnv sampleFs Flags.default).exit = .status 0 ∧
    (main noSessionEnv sampleFs Flags.default).exit.code = 0 := by
  refine ⟨by decide, by decide, by decide, by decide, by decide, by decide⟩

end Mailbonobo
